import Mathlib

/-!
# Verification of the Urban-Lens analytics core

Shallow embedding of `src/modules/analytics/batch_analytics.py` and the
analytics API layer (`src/api/analytics.py`), together with theorems that
settle the specification claims about the Image Locator, Image Fetcher,
Vision/LLM Client, Analysis Persister, Recommendation Parser and Metrics
Aggregator.

Conventions of the embedding:
* timestamps are integers (seconds); an hour window is `[h, h + 3600)`;
* SQL rows become Lean structures, the database a record of row lists;
* external effects (HTTP GET, S3 read, the Gemini call, per-statement
  database success/failure) are oracle functions passed as parameters;
* Python strings are `String` / `List Char`; Python floats are `ℚ`.
-/

/-! ## Python string helpers -/

/-- Whitespace characters removed by Python's `str.strip()` (ASCII subset). -/
def isPyWS (c : Char) : Bool :=
  c = ' ' ∨ c = '\t' ∨ c = '\n' ∨ c = '\r' ∨ c = '\x0b' ∨ c = '\x0c'

/-- Python `str.strip()` on a character list. -/
def pyStrip (s : List Char) : List Char :=
  ((s.dropWhile isPyWS).reverse.dropWhile isPyWS).reverse

/-- Python `str.split(sep)` for a one-character separator:
`"".split(c) = [""]`, and separators delimit (possibly empty) fragments. -/
def splitOnChar (sep : Char) : List Char → List (List Char)
  | [] => [[]]
  | c :: rest =>
    match splitOnChar sep rest with
    | [] => [[]]
    | g :: gs => if c = sep then [] :: g :: gs else (c :: g) :: gs

/-- Python `str.split(sep, 1)[1]`-style: drop everything up to and including
the first occurrence of `sep` (the whole list when `sep` is absent). -/
def dropThroughChar (sep : Char) : List Char → List Char
  | [] => []
  | c :: rest => if c = sep then rest else dropThroughChar sep rest

/-- ASCII lower-casing, as Python `str.lower()` on ASCII input. -/
def lowerChar (c : Char) : Char :=
  if 'A' ≤ c ∧ c ≤ 'Z' then Char.ofNat (c.toNat + 32) else c

def lowerStr (s : List Char) : List Char := s.map lowerChar

/-- `p` occurs as a contiguous sublist of `s` (Python `p in s`). -/
def strHasSub (s p : List Char) : Bool :=
  match s with
  | [] => decide (p = [])
  | _ :: rest => p.isPrefixOf s || strHasSub rest p

/-! ## URL parsing (the fragment of `urllib.parse.urlparse` the code uses) -/

/-- Characters allowed in a URL scheme after the leading letter. -/
def isSchemeChar (c : Char) : Bool :=
  c.isAlphanum ∨ c = '+' ∨ c = '-' ∨ c = '.'

/-- `urlparse(url).scheme`: the lower-cased text before the first `':'`, when
it starts with a letter and uses only scheme characters; `""` otherwise. -/
def urlScheme (url : String) : String :=
  let cs := url.data
  if cs.contains ':' then
    let s := cs.takeWhile (· ≠ ':')
    match s with
    | [] => ""
    | c :: rest =>
      if c.isAlpha ∧ rest.all isSchemeChar then ⟨lowerStr s⟩ else ""
  else ""

/-- The part of the URL after `scheme:`. -/
def urlAfterScheme (url : String) : List Char :=
  if urlScheme url = "" then url.data
  else (url.data.dropWhile (· ≠ ':')).drop 1

/-- `urlparse(url).netloc`: the host part between `//` and the next `/`
(empty when the URL has no `//`). -/
def urlNetloc (url : String) : String :=
  match urlAfterScheme url with
  | '/' :: '/' :: rest => ⟨rest.takeWhile (fun c => c ≠ '/')⟩
  | _ => ""

/-- `urlparse(url).path`: what follows the netloc. -/
def urlPath (url : String) : String :=
  match urlAfterScheme url with
  | '/' :: '/' :: rest => ⟨rest.dropWhile (fun c => c ≠ '/')⟩
  | other => ⟨other⟩

/-! ## Data model

`timeseries_analytics` rows (the columns the analytics module touches) and
the `llm_analytics` ledger. `people_ct` / `vehicle_ct` are nullable numerics
(`Option ℚ`), `output_img_path` and `analysis_result` nullable text. -/

structure TSRow where
  id : Nat
  timestamp : Int
  source_id : String
  output_img_path : Option String
  people_ct : Option ℚ
  vehicle_ct : Option ℚ
  detections : Option String
  analysis_result : Option String
  deriving Repr, DecidableEq

structure LedgerRow where
  id : Nat
  timestamp : Int
  prompt : String
  response : String
  execution_time_ms : Int
  deriving Repr, DecidableEq

structure DB where
  timeseries : List TSRow
  ledger : List LedgerRow
  deriving Repr, DecidableEq

/-- A `location` row as joined by the analytics queries: only the fields the
queries read. The primary key is the lookup key (see `Locations`). -/
structure Location where
  address : Option String
  deriving Repr, DecidableEq

/-- The `location` table as a partial map from `l.id::varchar` to the row
(the primary key makes ids unique, so a lookup function is the join). -/
def Locations : Type := String → Option Location

/-! ## Image Locator: `get_hourly_images` -/

/-- The `WHERE` clause of the hourly query: timestamp in `[start, start+1h)`
and `output_img_path IS NOT NULL`. -/
def inHourWindow (start : Int) (r : TSRow) : Bool :=
  decide (start ≤ r.timestamp) && decide (r.timestamp < start + 3600)
    && r.output_img_path.isSome

/-- Ascending-timestamp order used by `ORDER BY timestamp`. -/
def tsLE (a b : TSRow) : Prop := a.timestamp ≤ b.timestamp

instance : DecidableRel tsLE := fun a b => Int.decLe a.timestamp b.timestamp

instance : IsTotal TSRow tsLE := ⟨fun a b => Int.le_total a.timestamp b.timestamp⟩

instance : IsTrans TSRow tsLE := ⟨fun _ _ _ h h' => le_trans h h'⟩

/-- The rows returned by the hourly `SELECT`: the window filter, ordered by
timestamp ascending. -/
def queryHourlyRecords (db : DB) (start : Int) : List TSRow :=
  List.insertionSort tsLE (db.timeseries.filter (inHourWindow start))

/-- `get_hourly_images`: all records when at most 5 qualify, otherwise the
records at indices `int(i * (count / 5))` for `i in range(5)` (the float
stride `count / 5` floors to `i * count / 5` in exact arithmetic). -/
def get_hourly_images (db : DB) (hour_timestamp : Int) : List TSRow :=
  let records := queryHourlyRecords db hour_timestamp
  if records.length ≤ 5 then records
  else (List.range 5).filterMap (fun i => records[i * records.length / 5]?)


/-! ## Image Fetcher: `get_image_bytes`

HTTP and S3 are external effects, passed as oracles. A `FetchFailure` is the
exception `get_image_bytes` raises: `ValueError` for an unsupported scheme,
`requests.HTTPError` out of `raise_for_status()` (which raises exactly for
status codes 400-599), or a boto3 error from the anonymous S3 read. -/

structure HttpResult where
  status : Nat
  reason : String
  body : List Nat
  deriving Repr, DecidableEq

/-- An HTTP GET: url and timeout in seconds to the response. -/
def HttpOracle : Type := String → Nat → HttpResult

/-- An anonymous S3 `get_object`: bucket and key to body bytes or an error. -/
def S3Oracle : Type := String → String → Except String (List Nat)

inductive FetchFailure where
  | unsupportedScheme (scheme : String)
  | httpStatus (status : Nat) (msg : String)
  | s3Error (msg : String)
  deriving Repr, DecidableEq

/-- The message `requests` puts on the `HTTPError` from `raise_for_status`. -/
def httpErrorMsg (r : HttpResult) (url : String) : String :=
  toString r.status
    ++ (if r.status < 500 then " Client Error: " else " Server Error: ")
    ++ r.reason ++ " for url: " ++ url

/-- `str(e)` for the exception a failed fetch raises. -/
def fetchFailureMsg : FetchFailure → String
  | .unsupportedScheme s => "Unsupported URL scheme: " ++ s
  | .httpStatus _ m => m
  | .s3Error m => m

/-- `get_image_bytes`: dispatch on the URL scheme. `s3://bucket/key` is an
anonymous S3 read; `http(s)` is a GET with a 10 second timeout where
`raise_for_status()` turns a 4xx/5xx status into an `HTTPError`; any other
scheme raises `ValueError(f"Unsupported URL scheme: {scheme}")`. -/
def get_image_bytes (http : HttpOracle) (s3 : S3Oracle)
    (image_url : String) : Except FetchFailure (List Nat) :=
  let scheme := urlScheme image_url
  if scheme = "s3" then
    let bucket_name := urlNetloc image_url
    let key : String := ⟨(urlPath image_url).data.dropWhile (fun c => c = '/')⟩
    match s3 bucket_name key with
    | .ok b => .ok b
    | .error m => .error (.s3Error m)
  else if scheme = "http" ∨ scheme = "https" then
    let response := http image_url 10
    if 400 ≤ response.status ∧ response.status < 600 then
      .error (.httpStatus response.status (httpErrorMsg response image_url))
    else .ok response.body
  else .error (.unsupportedScheme scheme)

/-! ## Vision/LLM Client: `analyze_image_with_gemini_base64` -/

/-- `mimetypes.guess_type` restricted to the image types in play, with the
module's `image/png` default for unrecognized extensions. -/
def guessMimeType (url : String) : String :=
  let tail := url.data.reverse.takeWhile (fun c => c ≠ '.')
  if url.data.contains '.' ∧ ¬ tail.contains '/' then
    match (⟨lowerStr tail.reverse⟩ : String) with
    | "png" => "image/png"
    | "jpg" => "image/jpeg"
    | "jpeg" => "image/jpeg"
    | "gif" => "image/gif"
    | "webp" => "image/webp"
    | _ => "image/png"
  else "image/png"

/-- The external `generate_content` call: api key, model identifier, prompt,
inline image bytes and MIME type to either the response text or the message
of the exception the client raised. -/
def GeminiOracle : Type :=
  String → String → String → List Nat → String → Except String String

/-- `analyze_image_with_gemini_base64`: fetch the image, wrap it as an inline
part, call the fixed `gemini-2.0-flash` model; any exception anywhere in the
`try` block degrades to the text
`"Error during Gemini analysis with image: {e}"`. -/
def analyze_image_with_gemini_base64 (http : HttpOracle) (s3 : S3Oracle)
    (gemini : GeminiOracle) (image_url : String) (api_key : String)
    (prompt : String) : String :=
  match get_image_bytes http s3 image_url with
  | .error e => "Error during Gemini analysis with image: " ++ fetchFailureMsg e
  | .ok image_bytes =>
    match gemini api_key "gemini-2.0-flash" prompt image_bytes
        (guessMimeType image_url) with
    | .ok t => t
    | .error e => "Error during Gemini analysis with image: " ++ e

/-! ## Analysis Persister and the hourly pipeline -/

/-- `store_analysis_results`: a single-row `UPDATE` of `analysis_result`
followed by a commit; on a database error the transaction is rolled back and
the exception re-raised. Database success/failure per record id is the
`persistOk` oracle. -/
def store_analysis_results (persistOk : Nat → Bool) (db : DB)
    (record_id : Nat) (analysis_result : String) : Except String DB :=
  if persistOk record_id then
    .ok { db with
          timeseries := db.timeseries.map fun r =>
            if r.id = record_id then
              { r with analysis_result := some analysis_result }
            else r }
  else .error "database error storing analysis result"

/-- The hard-coded traffic-analysis prompt built inside
`process_hourly_traffic_images` (same text as `LLM_ANALYSIS_PROMPT`). -/
def traffic_analysis_prompt : String :=
  "Provide a purely objective, fact-based structured analysis of the traffic image with no personal opinions or bias.\n\nAnalyze:\n1. Vehicle types and counts visible in the image\n2. Objective inferences about the socioeconomic characteristics based solely on vehicle types present\n3. Pedestrian/foot traffic patterns and density\n4. Level of activity/busyness in the area\n5. Any notable infrastructure or environmental elements\n\nYour response MUST:\n- Be properly formatted with clear sections and bullet points\n- Include only observable facts from the image\n- Avoid subjective interpretations or personal opinions\n- Present quantitative data when available\n- Include a structured summary at the end\n\nThis is for an analytics engine, so maintain a professional, analytical tone throughout.\n"

/-- One iteration of the hourly batch loop: analyze the record, then the
per-record `try/except` — a persist failure is caught and logged, leaving
the accumulator unchanged; a success commits the update and appends the
record to the results. -/
def hourlyStep (http : HttpOracle) (s3 : S3Oracle) (gemini : GeminiOracle)
    (persistOk : Nat → Bool) (gemini_api_key : String)
    (acc : DB × List (TSRow × String)) (r : TSRow) :
    DB × List (TSRow × String) :=
  let analysis_result := analyze_image_with_gemini_base64 http s3 gemini
    (r.output_img_path.getD "") gemini_api_key traffic_analysis_prompt
  match store_analysis_results persistOk acc.1 r.id analysis_result with
  | .ok db2 => (db2, acc.2 ++ [(r, analysis_result)])
  | .error _ => acc

/-- The batch loop of `process_hourly_traffic_images` over an already
selected record list. -/
def hourlyAnalysisLoop (http : HttpOracle) (s3 : S3Oracle)
    (gemini : GeminiOracle) (persistOk : Nat → Bool) (gemini_api_key : String)
    (records : List TSRow) (db : DB) : DB × List (TSRow × String) :=
  records.foldl (hourlyStep http s3 gemini persistOk gemini_api_key) (db, [])

/-- `process_hourly_traffic_images`: analyze each selected record and store
the result; the per-record `try/except` catches a persist failure, logs it
and moves on to the next record. Returns the final database plus the
processed records paired with their analysis text. The hourly pipeline never
touches the `llm_analytics` ledger. -/
def process_hourly_traffic_images (http : HttpOracle) (s3 : S3Oracle)
    (gemini : GeminiOracle) (persistOk : Nat → Bool) (gemini_api_key : String)
    (db : DB) (target_hour : Int) : DB × List (TSRow × String) :=
  hourlyAnalysisLoop http s3 gemini persistOk gemini_api_key
    (get_hourly_images db target_hour) db

/-- The custom-prompt loop of the `POST /analytics/traffic-analysis`
background task (`src/api/analytics.py`): no per-record `try/except`, so a
raised persist error propagates and the remaining records are never
reached. The pair is the database as left behind plus the propagated
exception message, if any. -/
def customPromptLoop (http : HttpOracle) (s3 : S3Oracle)
    (gemini : GeminiOracle) (persistOk : Nat → Bool)
    (api_key custom_prompt : String) :
    List TSRow → DB → DB × Option String
  | [], db => (db, none)
  | r :: rs, db =>
    let analysis_result := analyze_image_with_gemini_base64 http s3 gemini
      (r.output_img_path.getD "") api_key custom_prompt
    match store_analysis_results persistOk db r.id analysis_result with
    | .ok db2 => customPromptLoop http s3 gemini persistOk api_key
        custom_prompt rs db2
    | .error e => (db, some e)

/-- The whole custom-prompt background path: locate the hour's records, then
run the unprotected loop. -/
def custom_prompt_analysis (http : HttpOracle) (s3 : S3Oracle)
    (gemini : GeminiOracle) (persistOk : Nat → Bool)
    (api_key custom_prompt : String) (db : DB) (target_hour : Int) :
    DB × Option String :=
  customPromptLoop http s3 gemini persistOk api_key custom_prompt
    (get_hourly_images db target_hour) db


/-! ## Ledger writes: `store_llm_analytics`

An `INSERT ... RETURNING id` into `llm_analytics`; append-only. Called by
`run_llm_analysis` and the recommendation generators — never by the hourly
pipeline. -/

def store_llm_analytics (persistOk : Bool) (now : Int) (db : DB)
    (prompt response : String) (execution_time_ms : Int) :
    Except String (DB × Nat) :=
  if persistOk then
    let newId := db.ledger.foldl (fun m r => max m r.id) 0 + 1
    .ok ({ db with
           ledger := db.ledger
             ++ [⟨newId, now, prompt, response, execution_time_ms⟩] }, newId)
  else .error "database error storing llm analytics"

/-! ## Latency measurement

`int((time.time() - start_time) * 1000)` as written in `run_llm_analysis`
and in `generate_location_recommendations`: Python `int()` truncates toward
zero. Clock readings are rationals (seconds). -/

/-- Python `int()` on a number: truncation toward zero. -/
def pyInt (q : ℚ) : ℤ := if 0 ≤ q then ⌊q⌋ else ⌈q⌉

/-- The reported latency for an LLM call that started at `start_time` and
finished at `finish_time` (seconds): `int((finish - start) * 1000)`. -/
def executionTimeMs (start_time finish_time : ℚ) : ℤ :=
  pyInt ((finish_time - start_time) * 1000)

/-! ## Metrics Aggregator: `get_traffic_metrics` -/

/-- `round(float(x), 2)` — round to 2 decimal places, half to even. -/
def pyRound2 (q : ℚ) : ℚ :=
  let s := q * 100
  let f : ℤ := ⌊s⌋
  let r : ℤ :=
    if s - f < 1/2 then f
    else if 1/2 < s - f then f + 1
    else if f % 2 = 0 then f else f + 1
  (r : ℚ) / 100

/-- SQL `AVG` over a nullable column: `NULL`s are ignored; `NULL` when no
non-null value exists. -/
def sqlAvg (xs : List (Option ℚ)) : Option ℚ :=
  let vs := xs.filterMap id
  if vs.length = 0 then none else some (vs.sum / vs.length)

/-- The three recognized `time_aggregation` modes (`None`, `"hour"`,
`"day"`). -/
inductive TimeAgg where
  | raw
  | hour
  | day
  deriving Repr, DecidableEq

/-- `date_trunc` on an epoch-seconds timestamp (identity in raw mode). -/
def truncTimestamp : TimeAgg → Int → Int
  | .raw, t => t
  | .hour, t => 3600 * Int.ediv t 3600
  | .day, t => 86400 * Int.ediv t 86400

/-- A sample joined with its location row, which the `WHERE` clause forces
to exist and to carry a non-null address. -/
structure QRow where
  row : TSRow
  address : String
  deriving Repr, DecidableEq

/-- `l.address ILIKE :address_filter` with pattern `"%filter%"`; the SQL
condition is added only when the Python string is truthy (non-empty). -/
def addressMatches (address_filter : Option String) (a : String) : Bool :=
  match address_filter with
  | none => true
  | some f =>
    if f = "" then true else strHasSub (lowerStr a.data) (lowerStr f.data)

/-- `l.id = :location_id`, added only when a location id is given; the join
condition `ta.source_id = l.id::varchar` makes this a `source_id` test. -/
def locationMatches (location_id : Option String) (source : String) : Bool :=
  match location_id with
  | none => true
  | some i => source = i

/-- The shared `WHERE` clause of all three metrics queries: a non-null
count, a joined location whose address is non-null, and the two optional
filters. -/
def qualifies (locs : Locations) (address_filter : Option String)
    (location_id : Option String) (r : TSRow) : Option QRow :=
  if r.people_ct.isSome ∨ r.vehicle_ct.isSome then
    match locs r.source_id with
    | none => none
    | some l =>
      match l.address with
      | none => none
      | some a =>
        if addressMatches address_filter a
            ∧ locationMatches location_id r.source_id then
          some ⟨r, a⟩
        else none
  else none

def qualifyingRows (locs : Locations) (address_filter : Option String)
    (location_id : Option String) (db : DB) : List QRow :=
  db.timeseries.filterMap (qualifies locs address_filter location_id)

/-- One formatted element of the `timeseries` array in the response. -/
structure SeriesRow where
  timestamp : Int
  source_id : String
  address : String
  people_count : ℚ
  vehicle_count : ℚ
  sample_count : Nat
  deriving Repr, DecidableEq

/-- The `GROUP BY` key: truncated timestamp, `source_id`, address. -/
def groupKey (agg : TimeAgg) (q : QRow) : Int × String × String :=
  (truncTimestamp agg q.row.timestamp, q.row.source_id, q.address)

/-- A raw-mode row: per-sample values and the literal `1 as sample_count`. -/
def rawSeriesRow (q : QRow) : SeriesRow :=
  ⟨q.row.timestamp, q.row.source_id, q.address,
   pyRound2 (q.row.people_ct.getD 0), pyRound2 (q.row.vehicle_ct.getD 0), 1⟩

/-- An aggregated row for group key `k`: `AVG` of each count over the
group's rows and `COUNT(*) as sample_count`. -/
def groupSeriesRow (agg : TimeAgg) (qs : List QRow)
    (k : Int × String × String) : SeriesRow :=
  let grp := qs.filter (fun q => groupKey agg q = k)
  ⟨k.1, k.2.1, k.2.2,
   pyRound2 ((sqlAvg (grp.map (fun q => q.row.people_ct))).getD 0),
   pyRound2 ((sqlAvg (grp.map (fun q => q.row.vehicle_ct))).getD 0),
   grp.length⟩

/-- The unsorted result set of the timeseries query. -/
def seriesRows (agg : TimeAgg) (qs : List QRow) : List SeriesRow :=
  match agg with
  | .raw => qs.map rawSeriesRow
  | _ => ((qs.map (groupKey agg)).dedup).map (groupSeriesRow agg qs)

/-- `ORDER BY timestamp DESC`. -/
def rowDesc (a b : SeriesRow) : Prop := b.timestamp ≤ a.timestamp

instance : DecidableRel rowDesc := fun a b => Int.decLe b.timestamp a.timestamp

instance : IsTotal SeriesRow rowDesc :=
  ⟨fun a b => (Int.le_total b.timestamp a.timestamp).imp id id⟩

instance : IsTrans SeriesRow rowDesc := ⟨fun _ _ _ h h2 => le_trans h2 h⟩

structure Averages where
  avg_people : ℚ
  avg_vehicles : ℚ
  total_records : Nat
  deriving Repr, DecidableEq

/-- The response of `get_traffic_metrics`. -/
structure MetricsResult where
  averages : Averages
  timeseries : List SeriesRow
  total : Nat
  skip : Nat
  limit : Option Nat
  aggregation : TimeAgg
  deriving Repr, DecidableEq

/-- `get_traffic_metrics`: the averages query, the (optionally grouped)
timeseries query ordered by timestamp descending with `OFFSET skip` and
`LIMIT limit`, and the count query re-deriving the same grouping for
`pagination.total`. -/
def get_traffic_metrics (locs : Locations) (db : DB) (skip : Nat)
    (limit : Option Nat) (address_filter : Option String)
    (location_id : Option String) (time_aggregation : TimeAgg) :
    MetricsResult :=
  let qs := qualifyingRows locs address_filter location_id db
  let sorted := List.insertionSort rowDesc (seriesRows time_aggregation qs)
  let paged :=
    match limit with
    | some n => (sorted.drop skip).take n
    | none => sorted.drop skip
  let total :=
    match time_aggregation with
    | .raw => qs.length
    | _ => ((qs.map (groupKey time_aggregation)).dedup).length
  { averages :=
      ⟨pyRound2 ((sqlAvg (qs.map (fun q => q.row.people_ct))).getD 0),
       pyRound2 ((sqlAvg (qs.map (fun q => q.row.vehicle_ct))).getD 0),
       qs.length⟩,
    timeseries := paged,
    total := total,
    skip := skip,
    limit := limit,
    aggregation := time_aggregation }

/-! ## Recommendation Parser

The list-extraction loop shared by `generate_business_recommendation` and
`get_business_recommendations`. -/

/-- The character class of the marker-stripping regex (dash, star, digit, dot). -/
def isMarkerChar (c : Char) : Bool :=
  c = '-' ∨ c = '*' ∨ c.isDigit ∨ c = '.'

/-- The numeric-dot marker test: one or more digits then a dot. -/
def startsNumericDot (l : List Char) : Bool :=
  let ds := l.takeWhile Char.isDigit
  decide (ds ≠ []) &&
    (match l.drop ds.length with
     | '.' :: _ => true
     | _ => false)

/-- The keep condition of the loop: a non-empty line starting with `-`, `*`
or a numeric-dot marker. -/
def isListMarkerLine (l : List Char) : Bool :=
  match l with
  | [] => false
  | c :: _ => c = '-' ∨ c = '*' ∨ startsNumericDot l

/-- `re.sub(marker-run + whitespace-run, '', line).strip()`. -/
def cleanMarkerLine (l : List Char) : List Char :=
  match l with
  | [] => pyStrip l
  | c :: _ =>
    if isMarkerChar c then pyStrip ((l.dropWhile isMarkerChar).dropWhile isPyWS)
    else pyStrip l

/-- The primary pass: split the stripped text on line breaks and accumulate
the cleaned marker lines that remain non-empty. -/
def parseRecListLines (recommendation_text : List Char) : List (List Char) :=
  (splitOnChar '\n' (pyStrip recommendation_text)).foldl
    (fun acc rawLine =>
      let line := pyStrip rawLine
      if isListMarkerLine line then
        let clean_line := cleanMarkerLine line
        if clean_line ≠ [] then acc ++ [clean_line] else acc
      else acc) []

/-- The fallback pass: split the original text on periods and keep each
non-empty stripped fragment with a trailing period appended. -/
def periodFallback (recommendation_text : List Char) : List (List Char) :=
  (splitOnChar '.' recommendation_text).foldl
    (fun acc sentence =>
      let clean_sentence := pyStrip sentence
      if clean_sentence ≠ [] then acc ++ [clean_sentence ++ ['.']] else acc) []

/-- The whole parser: the primary pass, then the period fallback when it
produced nothing. -/
def extract_recommendations (recommendation_text : String) : List String :=
  let primary := parseRecListLines recommendation_text.data
  (if primary = [] then periodFallback recommendation_text.data
   else primary).map (fun l => (⟨l⟩ : String))


/-! ## Evaluation-term extraction (`generate_location_recommendations`)

The parsing of the three comma-separated evaluation terms out of the LLM
response: a first-line heuristic, then a regex search over the whole
response for `terms? :? <chunk>,<chunk>,<chunk>` where a chunk is a
non-empty run of word characters, whitespace and dashes. Because a chunk
can contain neither comma nor colon, the regex matches deterministically:
each chunk is the maximal such run. -/

def isWordChar (c : Char) : Bool := c.isAlphanum ∨ c = '_'

/-- The chunk character class of the three-term regex. -/
def isTermsChar (c : Char) : Bool := isWordChar c ∨ isPyWS c ∨ c = '-'

/-- Match the capture group (three comma-separated chunks) at the head of
`l`; returns the captured text. -/
def matchThreeTerms (l : List Char) : Option (List Char) :=
  let r1 := l.takeWhile isTermsChar
  match r1, l.drop r1.length with
  | [], _ => none
  | _, ',' :: l2 =>
    let r2 := l2.takeWhile isTermsChar
    match r2, l2.drop r2.length with
    | [], _ => none
    | _, ',' :: l3 =>
      let r3 := l3.takeWhile isTermsChar
      if r3 = [] then none else some (r1 ++ [','] ++ r2 ++ [','] ++ r3)
    | _, _ => none
  | _, _ => none

/-- The remainders to try after matching the literal `term`, in the greedy
backtracking order of `s?` then `:?` (case-insensitive `s`). -/
def afterMarkerCands (rest : List Char) : List (List Char) :=
  let withColon (x : List Char) : List (List Char) :=
    match x with
    | ':' :: r => [r, x]
    | _ => [x]
  let afterS : List (List Char) :=
    match rest with
    | c :: r2 => if lowerChar c = 's' then [r2] else []
    | [] => []
  (afterS.flatMap withColon) ++ withColon rest

/-- Try the whole pattern anchored at the head of `l` (which must spell
`term` case-insensitively). -/
def tryTermsAt (l : List Char) : Option (List Char) :=
  match l with
  | a :: b :: c :: d :: rest =>
    if lowerChar a = 't' ∧ lowerChar b = 'e' ∧ lowerChar c = 'r'
        ∧ lowerChar d = 'm' then
      (afterMarkerCands rest).foldl
        (fun acc cand =>
          match acc with
          | some g => some g
          | none => matchThreeTerms cand) none
    else none
  | _ => none

/-- `re.search` for the three-term pattern: leftmost match wins. -/
def searchTermsPattern : List Char → Option (List Char)
  | [] => none
  | c :: rest =>
    match tryTermsAt (c :: rest) with
    | some g => some g
    | none => searchTermsPattern rest

/-- The first-line heuristic of the parsing loop: only iteration `i == 0`
can set `evaluation_terms`; it fires when the first (stripped) line
contains a comma or a colon, splitting off a `label:` when both a colon
and a comma are present. Returns `[]` when the heuristic does not fire. -/
def firstLineTerms (full_response : String) : List Char :=
  match splitOnChar '\n' (pyStrip full_response.data) with
  | [] => []
  | l0 :: _ =>
    let line := pyStrip l0
    if line.contains ',' ∨ line.contains ':' then
      if line.contains ':' ∧ line.contains ',' then
        pyStrip (dropThroughChar ':' line)
      else line
    else []

/-- The complete extraction: the first-line heuristic, then — if it yielded
nothing or not exactly three comma-separated parts — the regex search; when
the regex also fails the first-line value is left as is. -/
def parseEvaluationTerms (full_response : String) : List Char :=
  let evaluation_terms := firstLineTerms full_response
  if evaluation_terms = [] ∨ (splitOnChar ',' evaluation_terms).length ≠ 3 then
    match searchTermsPattern full_response.data with
    | some g => pyStrip g
    | none => evaluation_terms
  else evaluation_terms


/-! ## Concrete instances used to exercise the theorems -/

/-- Six qualifying samples inside the hour window starting at 0. -/
def c1ExampleDB : DB :=
  { timeseries :=
      [⟨1, 0, "s", some "u1", none, none, none, none⟩,
       ⟨2, 600, "s", some "u2", none, none, none, none⟩,
       ⟨3, 1200, "s", some "u3", none, none, none, none⟩,
       ⟨4, 1800, "s", some "u4", none, none, none, none⟩,
       ⟨5, 2400, "s", some "u5", none, none, none, none⟩,
       ⟨6, 3000, "s", some "u6", none, none, none, none⟩],
    ledger := [] }


/-- A constant HTTP oracle. -/
def httpConst (r : HttpResult) : HttpOracle := fun _ _ => r

/-- A constant S3 oracle. -/
def s3Const (b : List Nat) : S3Oracle := fun _ _ => .ok b

/-- A Gemini oracle that always raises. -/
def geminiErr (msg : String) : GeminiOracle := fun _ _ _ _ _ => .error msg

/-- A Gemini oracle that always answers `t`. -/
def geminiConst (t : String) : GeminiOracle := fun _ _ _ _ _ => .ok t


instance {e a : Type} [DecidableEq e] [DecidableEq a] :
    DecidableEq (Except e a) := fun x y =>
  match x, y with
  | .ok v, .ok w => decidable_of_iff (v = w) (by simp)
  | .error v, .error w => decidable_of_iff (v = w) (by simp)
  | .ok _, .error _ => isFalse (by simp)
  | .error _, .ok _ => isFalse (by simp)


/-- What one line of the primary pass contributes: the cleaned marker line,
when the line is a marker line and cleaning leaves it non-empty. -/
def markerEmit (rawLine : List Char) : Option (List Char) :=
  if isListMarkerLine (pyStrip rawLine) then
    if cleanMarkerLine (pyStrip rawLine) ≠ [] then
      some (cleanMarkerLine (pyStrip rawLine))
    else none
  else none

/-- What one period-separated fragment of the fallback pass contributes. -/
def periodEmit (sentence : List Char) : Option (List Char) :=
  if pyStrip sentence ≠ [] then some (pyStrip sentence ++ ['.']) else none


/-- One qualifying sample at 2024-01-01T10:30:00Z (hour window starting at
2024-01-01T10:00:00Z = 1704103200). -/
def c2ExampleDB : DB :=
  { timeseries :=
      [⟨1, 1704105000, "s1", some "http://cam/img.png", none, none, none,
        none⟩],
    ledger := [] }

/-- Two qualifying samples in the hour window starting at 0. -/
def c7ExampleDB : DB :=
  { timeseries :=
      [⟨1, 0, "s1", some "http://cam/a.png", none, none, none, none⟩,
       ⟨2, 60, "s1", some "http://cam/b.png", none, none, none, none⟩],
    ledger := [] }


/-- A location table with one located source. -/
def c3ExampleLocs : Locations :=
  fun s => if s = "s1" then some ⟨some "1 Main St"⟩ else none

/-- One qualifying sample per source with counts present. -/
def c3ExampleDB : DB :=
  { timeseries := [⟨1, 0, "s1", none, some 2, some 3, none, none⟩],
    ledger := [] }

/-- One matching sample whose true counts are zero. -/
def c10ZeroDB : DB :=
  { timeseries := [⟨1, 0, "s1", none, some 0, some 0, none, none⟩],
    ledger := [] }

/-! ## DEFINITIONS ABOVE / THEOREMS BELOW -/

/-- Indexing a list at in-range positions keeps every index: the `filterMap`
drops nothing. -/
theorem filterMap_getElem_len {α : Type} (l : List α) (idxs : List Nat)
    (h : ∀ i ∈ idxs, i < l.length) :
    (idxs.filterMap (fun i => l[i]?)).length = idxs.length := by
  induction idxs with
  | nil => rfl
  | cons i is ih =>
    have hi : i < l.length := h i (List.mem_cons_self i is)
    have : l[i]? = some l[i] := List.getElem?_eq_getElem hi
    simp only [List.filterMap_cons, this, List.length_cons]
    rw [ih (fun j hj => h j (List.mem_cons_of_mem i hj))]

/-- Index `i * n / 5` stays in range for `i < 5` once `5 < n`. -/
theorem sample_idx_lt (n i : Nat) (hn : 5 < n) (hi : i < 5) : i * n / 5 < n := by
  have h1 : i * n ≤ 4 * n := Nat.mul_le_mul_right n (by omega)
  have h2 : i * n / 5 ≤ 4 * n / 5 := Nat.div_le_div_right h1
  have h3 : 4 * n / 5 < n := by omega
  exact lt_of_le_of_lt h2 h3

/-- The sampled indices grow strictly with `i` once `5 < n`. -/
theorem sample_idx_strict (n i j : Nat) (hn : 5 < n) (hij : i < j) :
    i * n / 5 < j * n / 5 := by
  have key : i * n + n ≤ j * n := by
    calc i * n + n = (i + 1) * n := by ring
    _ ≤ j * n := Nat.mul_le_mul_right n hij
  revert key
  generalize i * n = a
  generalize j * n = b
  intro key
  omega

/-- C1: over an hour window, the Image Locator sees exactly the samples with
a non-null image reference and a timestamp in `[start, start + 1h)`, in
ascending timestamp order; with `N ≤ 5` of them it returns all `N` (empty
sequence included), and with `N > 5` it returns exactly the samples at
indices `⌊i * N / 5⌋` for `i = 0..4`, which are strictly increasing, start
at index `0` and stay `≤ N - 1`. -/
theorem c1_image_locator_even_sampling (db : DB) (start : Int) :
    (queryHourlyRecords db start).Perm
        (db.timeseries.filter (inHourWindow start))
      ∧ List.Sorted tsLE (queryHourlyRecords db start)
      ∧ ((queryHourlyRecords db start).length ≤ 5 →
          get_hourly_images db start = queryHourlyRecords db start)
      ∧ (5 < (queryHourlyRecords db start).length →
          get_hourly_images db start
              = (List.range 5).filterMap
                  (fun i => (queryHourlyRecords db start)[
                    i * (queryHourlyRecords db start).length / 5]?)
            ∧ (get_hourly_images db start).length = 5
            ∧ List.Pairwise (fun a b => a < b)
                ((List.range 5).map
                  (fun i => i * (queryHourlyRecords db start).length / 5))
            ∧ 0 * (queryHourlyRecords db start).length / 5 = 0
            ∧ 4 * (queryHourlyRecords db start).length / 5
                ≤ (queryHourlyRecords db start).length - 1) := by
  refine ⟨List.perm_insertionSort tsLE _, List.sorted_insertionSort tsLE _,
    fun h => ?_, fun h => ?_⟩
  · simp only [get_hourly_images]
    rw [if_pos h]
  · have hne : ¬ (queryHourlyRecords db start).length ≤ 5 := not_le.mpr h
    have heq : get_hourly_images db start
        = (List.range 5).filterMap
            (fun i => (queryHourlyRecords db start)[
              i * (queryHourlyRecords db start).length / 5]?) := by
      simp only [get_hourly_images]
      rw [if_neg hne]
    refine ⟨heq, ?_, ?_, ?_, ?_⟩
    · rw [heq]
      have hcomp : (List.range 5).filterMap
            (fun i => (queryHourlyRecords db start)[
              i * (queryHourlyRecords db start).length / 5]?)
          = ((List.range 5).map
              (fun i => i * (queryHourlyRecords db start).length / 5)).filterMap
              (fun j => (queryHourlyRecords db start)[j]?) := by
        rw [List.filterMap_map]
        rfl
      rw [hcomp, filterMap_getElem_len]
      · simp
      · intro j hj
        rcases List.mem_map.mp hj with ⟨i, hi, rfl⟩
        exact sample_idx_lt _ i h (List.mem_range.mp hi)
    · refine List.Pairwise.map _ (fun i j hij => ?_)
        (List.pairwise_lt_range 5)
      exact sample_idx_strict _ i j h hij
    · simp
    · omega

theorem c1_image_locator_even_sampling_witness :
    (5 < (queryHourlyRecords c1ExampleDB 0).length
      ∧ (get_hourly_images c1ExampleDB 0).length = 5)
    ∧ ((queryHourlyRecords c1ExampleDB 7200).length ≤ 5
      ∧ get_hourly_images c1ExampleDB 7200 = queryHourlyRecords c1ExampleDB 7200) :=
  ⟨⟨by decide, ((c1_image_locator_even_sampling c1ExampleDB 0).2.2.2
      (by decide)).2.1⟩,
   ⟨by decide, (c1_image_locator_even_sampling c1ExampleDB 7200).2.2.1
      (by decide)⟩⟩

/-- C4: the Vision/LLM Client is total on its string result: whatever the
oracles do, it returns the Gemini text on success and otherwise the error
text prefixed with "Error during Gemini analysis with image: " — for fetch
failures (unsupported scheme included) and for Gemini failures alike; no
exception ever propagates. -/
theorem c4_vision_client_degrades_to_text (http : HttpOracle) (s3 : S3Oracle)
    (gemini : GeminiOracle) (image_url api_key prompt : String) :
    (∀ e, get_image_bytes http s3 image_url = .error e →
      analyze_image_with_gemini_base64 http s3 gemini image_url api_key prompt
        = "Error during Gemini analysis with image: " ++ fetchFailureMsg e)
    ∧ (∀ b, get_image_bytes http s3 image_url = .ok b →
        (∀ e, gemini api_key "gemini-2.0-flash" prompt b
              (guessMimeType image_url) = .error e →
          analyze_image_with_gemini_base64 http s3 gemini image_url api_key
              prompt
            = "Error during Gemini analysis with image: " ++ e)
        ∧ (∀ t, gemini api_key "gemini-2.0-flash" prompt b
              (guessMimeType image_url) = .ok t →
          analyze_image_with_gemini_base64 http s3 gemini image_url api_key
              prompt = t)) := by
  refine ⟨fun e he => ?_, fun b hb => ⟨fun e he => ?_, fun t ht => ?_⟩⟩
  · simp only [analyze_image_with_gemini_base64, he]
  · simp only [analyze_image_with_gemini_base64, hb, he]
  · simp only [analyze_image_with_gemini_base64, hb, ht]

theorem c4_vision_client_degrades_to_text_witness :
    analyze_image_with_gemini_base64 (httpConst ⟨200, "OK", [1]⟩) (s3Const [])
        (geminiConst "count: 3 cars") "ftp://host/x" "key" "p"
      = "Error during Gemini analysis with image: Unsupported URL scheme: ftp"
    ∧ analyze_image_with_gemini_base64 (httpConst ⟨200, "OK", [1]⟩)
        (s3Const []) (geminiErr "boom") "http://host/x.png" "key" "p"
      = "Error during Gemini analysis with image: boom"
    ∧ analyze_image_with_gemini_base64 (httpConst ⟨200, "OK", [1]⟩)
        (s3Const []) (geminiConst "count: 3 cars") "http://host/x.png" "key"
        "p"
      = "count: 3 cars" := by
  refine ⟨?_, ?_, ?_⟩
  · exact ((c4_vision_client_degrades_to_text (httpConst ⟨200, "OK", [1]⟩)
      (s3Const []) (geminiConst "count: 3 cars") "ftp://host/x" "key" "p").1
      (.unsupportedScheme "ftp") (by decide)).trans (by decide)
  · exact (((c4_vision_client_degrades_to_text (httpConst ⟨200, "OK", [1]⟩)
      (s3Const []) (geminiErr "boom") "http://host/x.png" "key" "p").2
      [1] (by decide)).1 "boom" (by decide)).trans (by decide)
  · exact ((c4_vision_client_degrades_to_text (httpConst ⟨200, "OK", [1]⟩)
      (s3Const []) (geminiConst "count: 3 cars") "http://host/x.png" "key"
      "p").2 [1] (by decide)).2 "count: 3 cars" (by decide)

/-- C6 as stated is false at a non-2xx status outside 400-599: a 304
response does not raise, the body is returned. -/
theorem c6_image_fetcher_counterexample :
    get_image_bytes (httpConst ⟨304, "Not Modified", [7]⟩) (s3Const [])
        "http://host/img.png"
      = .ok [7]
    ∧ ¬ (200 ≤ 304 ∧ 304 < 300) := by decide

/-- C6 (amended): `get_image_bytes` raises `ValueError` (the unsupported
scheme error) for every scheme other than `s3`, `http`, `https`; for
`http`/`https` it performs the GET with a 10 second timeout and raises
`HTTPError` exactly when the status is in 400..599, otherwise returning the
body bytes. -/
theorem c6_image_fetcher_scheme_and_status (http : HttpOracle)
    (s3 : S3Oracle) (url : String) :
    (urlScheme url ≠ "s3" → urlScheme url ≠ "http" → urlScheme url ≠ "https" →
      get_image_bytes http s3 url = .error (.unsupportedScheme (urlScheme url)))
    ∧ ((urlScheme url = "http" ∨ urlScheme url = "https") →
        (400 ≤ (http url 10).status ∧ (http url 10).status < 600 →
          get_image_bytes http s3 url
            = .error (.httpStatus (http url 10).status
                (httpErrorMsg (http url 10) url)))
        ∧ (¬ (400 ≤ (http url 10).status ∧ (http url 10).status < 600) →
          get_image_bytes http s3 url = .ok (http url 10).body)) := by
  constructor
  · intro h1 h2 h3
    simp only [get_image_bytes]
    rw [if_neg h1, if_neg (by simp [h2, h3])]
  · intro hs
    have h1 : urlScheme url ≠ "s3" := by
      rcases hs with h | h <;> simp [h]
    constructor
    · intro hstat
      simp only [get_image_bytes]
      rw [if_neg h1, if_pos hs, if_pos hstat]
    · intro hstat
      simp only [get_image_bytes]
      rw [if_neg h1, if_pos hs, if_neg hstat]

theorem c6_image_fetcher_scheme_and_status_witness :
    get_image_bytes (httpConst ⟨200, "OK", [9]⟩) (s3Const [])
        "ftp://host/img.png"
      = .error (.unsupportedScheme "ftp")
    ∧ get_image_bytes (httpConst ⟨404, "Not Found", []⟩) (s3Const [])
        "http://host/img.png"
      = .error (.httpStatus 404
          (httpErrorMsg ⟨404, "Not Found", []⟩ "http://host/img.png"))
    ∧ get_image_bytes (httpConst ⟨200, "OK", [9]⟩) (s3Const [])
        "https://host/img.png"
      = .ok [9] := by
  refine ⟨?_, ?_, ?_⟩
  · exact ((c6_image_fetcher_scheme_and_status (httpConst ⟨200, "OK", [9]⟩)
      (s3Const []) "ftp://host/img.png").1 (by decide) (by decide)
      (by decide)).trans (by decide)
  · exact ((c6_image_fetcher_scheme_and_status (httpConst ⟨404, "Not Found", []⟩)
      (s3Const []) "http://host/img.png").2 (by decide)).1 (by decide)
  · exact ((c6_image_fetcher_scheme_and_status (httpConst ⟨200, "OK", [9]⟩)
      (s3Const []) "https://host/img.png").2 (by decide)).2 (by decide)

/-- The primary-pass fold accumulates exactly the `markerEmit` results. -/
theorem marker_foldl (lines : List (List Char)) :
    ∀ acc : List (List Char),
      lines.foldl
        (fun acc rawLine =>
          let line := pyStrip rawLine
          if isListMarkerLine line then
            let clean_line := cleanMarkerLine line
            if clean_line ≠ [] then acc ++ [clean_line] else acc
          else acc) acc
      = acc ++ lines.filterMap markerEmit := by
  induction lines with
  | nil => intro acc; simp
  | cons x xs ih =>
    intro acc
    rw [List.foldl_cons, ih, List.filterMap_cons]
    simp only [markerEmit]
    by_cases hm : isListMarkerLine (pyStrip x)
    · by_cases hc : cleanMarkerLine (pyStrip x) = []
      · simp [hm, hc]
      · simp [hm, hc, List.append_assoc]
    · simp [hm]

/-- The fallback fold accumulates exactly the `periodEmit` results. -/
theorem period_foldl (sentences : List (List Char)) :
    ∀ acc : List (List Char),
      sentences.foldl
        (fun acc sentence =>
          let clean_sentence := pyStrip sentence
          if clean_sentence ≠ [] then acc ++ [clean_sentence ++ ['.']]
          else acc) acc
      = acc ++ sentences.filterMap periodEmit := by
  induction sentences with
  | nil => intro acc; simp
  | cons x xs ih =>
    intro acc
    rw [List.foldl_cons, ih, List.filterMap_cons]
    simp only [periodEmit]
    by_cases hc : pyStrip x = []
    · simp [hc]
    · simp [hc, List.append_assoc]

/-- C5: the Recommendation Parser keeps exactly the marker lines (lines
starting with a dash, a star, or digits followed by a dot), each with its
marker run and surrounding whitespace stripped (empty leftovers dropped);
when that primary pass yields zero items it falls back to splitting the
whole text on periods, returning each non-empty trimmed fragment with a
trailing period; in particular the two specification examples hold. -/
theorem c5_recommendation_extraction (recommendation_text : String) :
    extract_recommendations recommendation_text
        = (if (splitOnChar '\n' (pyStrip recommendation_text.data)).filterMap
              markerEmit = [] then
            (splitOnChar '.' recommendation_text.data).filterMap periodEmit
          else
            (splitOnChar '\n' (pyStrip recommendation_text.data)).filterMap
              markerEmit).map (fun l => (⟨l⟩ : String))
      ∧ extract_recommendations "- a\n- b\n1. c" = ["a", "b", "c"]
      ∧ extract_recommendations "Sentence one. Sentence two."
          = ["Sentence one.", "Sentence two."] := by
  refine ⟨?_, by decide, by decide⟩
  have h1 : parseRecListLines recommendation_text.data
      = (splitOnChar '\n' (pyStrip recommendation_text.data)).filterMap
          markerEmit := by
    unfold parseRecListLines
    rw [marker_foldl]
    simp
  have h2 : periodFallback recommendation_text.data
      = (splitOnChar '.' recommendation_text.data).filterMap periodEmit := by
    unfold periodFallback
    rw [period_foldl]
    simp
  unfold extract_recommendations
  rw [h1, h2]

/-- C8 as stated is false: on the response "a, b" the first-line heuristic
stores "a, b" (two comma-separated terms, not three), the regex search finds
nothing, and the field keeps the two-term value instead of being emptied. -/
theorem c8_evaluation_terms_counterexample :
    parseEvaluationTerms "a, b" = "a, b".data
    ∧ searchTermsPattern "a, b".data = none
    ∧ (splitOnChar ',' (parseEvaluationTerms "a, b")).length ≠ 3
    ∧ parseEvaluationTerms "a, b" ≠ [] := by decide

/-- C8 (amended): when the regex search over the full response fails, the
`evaluation_terms` field is exactly whatever the first-line heuristic
produced — the empty string when the heuristic did not fire (first stripped
line has neither comma nor colon), but the heuristic's value, even with a
term count other than three, when it did. -/
theorem c8_evaluation_terms_fallback (full_response : String)
    (hn : searchTermsPattern full_response.data = none) :
    parseEvaluationTerms full_response = firstLineTerms full_response
    ∧ (firstLineTerms full_response = [] →
        parseEvaluationTerms full_response = []) := by
  have h : parseEvaluationTerms full_response = firstLineTerms full_response := by
    unfold parseEvaluationTerms
    by_cases hc : firstLineTerms full_response = []
        ∨ (splitOnChar ',' (firstLineTerms full_response)).length ≠ 3
    · rw [if_pos hc, hn]
    · rw [if_neg hc]
  exact ⟨h, fun he => h.trans he⟩

theorem c8_evaluation_terms_fallback_witness :
    parseEvaluationTerms "no commas or colons here" = [] :=
  (c8_evaluation_terms_fallback "no commas or colons here" (by decide)).2
    (by decide)

/-- C9 as stated is false: `int()` truncates rather than rounds, so a call
lasting 0.0015 s reports 1 ms where round-to-nearest gives 2 ms. -/
theorem c9_execution_time_counterexample :
    executionTimeMs 0 (3 / 2000) = 1
    ∧ round (((3 : ℚ) / 2000 - 0) * 1000) = 2 := by
  constructor
  · norm_num [executionTimeMs, pyInt]
  · norm_num [round_eq]

/-- C9 (amended): the reported `execution_time_ms` is the wall-clock delta
in milliseconds truncated toward zero — `⌊d * 1000⌋` for the nonnegative
durations a monotone clock produces — not rounded to the nearest integer. -/
theorem c9_execution_time_truncates (start_time finish_time : ℚ)
    (h : start_time ≤ finish_time) :
    executionTimeMs start_time finish_time
      = ⌊(finish_time - start_time) * 1000⌋ := by
  unfold executionTimeMs pyInt
  rw [if_pos]
  exact mul_nonneg (by linarith) (by norm_num)

theorem c9_execution_time_truncates_witness :
    executionTimeMs 0 (3 / 2000) = ⌊(((3 : ℚ) / 2000) - 0) * 1000⌋
    ∧ ⌊(((3 : ℚ) / 2000) - 0) * 1000⌋ = 1 :=
  ⟨c9_execution_time_truncates 0 (3 / 2000) (by norm_num), by norm_num⟩

/-- C2 as stated is false on the spec's own end-to-end scenario: one
qualifying sample at 2024-01-01T10:30:00Z, Vision Client returning
"count: 3 cars", pipeline run for the 10:00 hour — the sample's
analysis_result is set, but the llm_analytics ledger stays empty: no audit
row is appended. -/
theorem c2_hourly_pipeline_counterexample :
    (process_hourly_traffic_images (httpConst ⟨200, "OK", [1]⟩) (s3Const [])
        (geminiConst "count: 3 cars") (fun _ => true) "key" c2ExampleDB
        1704103200).1.timeseries
      = [⟨1, 1704105000, "s1", some "http://cam/img.png", none, none, none,
          some "count: 3 cars"⟩]
    ∧ (process_hourly_traffic_images (httpConst ⟨200, "OK", [1]⟩) (s3Const [])
        (geminiConst "count: 3 cars") (fun _ => true) "key" c2ExampleDB
        1704103200).1.ledger.length
      = 0 := by decide

/-- C2 (amended): over an hour window holding exactly one qualifying sample
whose persist succeeds, the pipeline sets that sample's analysis_result to
the Vision Client's text and returns it as the single result — and appends
nothing to the llm_analytics ledger (the ledger is written only by
run_llm_analysis and the recommendation generators, not by the hourly
pipeline). -/
theorem c2_hourly_pipeline_single_sample (http : HttpOracle) (s3 : S3Oracle)
    (gemini : GeminiOracle) (persistOk : Nat → Bool) (key : String) (db : DB)
    (h : Int) (r : TSRow) (hq : queryHourlyRecords db h = [r])
    (hok : persistOk r.id = true) :
    process_hourly_traffic_images http s3 gemini persistOk key db h
      = ({ db with
           timeseries := db.timeseries.map fun x =>
             if x.id = r.id then
               { x with
                 analysis_result :=
                   some (analyze_image_with_gemini_base64 http s3 gemini
                     (r.output_img_path.getD "") key
                     traffic_analysis_prompt) }
             else x },
         [(r, analyze_image_with_gemini_base64 http s3 gemini
            (r.output_img_path.getD "") key traffic_analysis_prompt)])
    ∧ (process_hourly_traffic_images http s3 gemini persistOk key db h).1.ledger
        = db.ledger := by
  have hg : get_hourly_images db h = [r] := by
    unfold get_hourly_images
    rw [hq]
    simp
  have hpair : process_hourly_traffic_images http s3 gemini persistOk key db h
      = ({ db with
           timeseries := db.timeseries.map fun x =>
             if x.id = r.id then
               { x with
                 analysis_result :=
                   some (analyze_image_with_gemini_base64 http s3 gemini
                     (r.output_img_path.getD "") key
                     traffic_analysis_prompt) }
             else x },
         [(r, analyze_image_with_gemini_base64 http s3 gemini
            (r.output_img_path.getD "") key traffic_analysis_prompt)]) := by
    unfold process_hourly_traffic_images hourlyAnalysisLoop
    rw [hg]
    simp only [List.foldl_cons, List.foldl_nil, hourlyStep,
      store_analysis_results, hok]
    simp
  exact ⟨hpair, by rw [hpair]⟩

theorem c2_hourly_pipeline_single_sample_witness :
    (process_hourly_traffic_images (httpConst ⟨200, "OK", [1]⟩) (s3Const [])
        (geminiConst "count: 3 cars") (fun _ => true) "key" c2ExampleDB
        1704103200).1.ledger
      = c2ExampleDB.ledger :=
  (c2_hourly_pipeline_single_sample (httpConst ⟨200, "OK", [1]⟩) (s3Const [])
    (geminiConst "count: 3 cars") (fun _ => true) "key" c2ExampleDB 1704103200
    ⟨1, 1704105000, "s1", some "http://cam/img.png", none, none, none, none⟩
    (by decide) (by decide)).2

/-- C7 as stated is false for the custom-prompt path: with two qualifying
records where persisting record 1 fails and persisting record 2 would
succeed, the custom-prompt loop propagates the error and leaves the
database untouched — record 2 is never processed — while the standard path
under the same failure still processes record 2. -/
theorem c7_batch_error_containment_counterexample :
    (custom_prompt_analysis (httpConst ⟨200, "OK", [1]⟩) (s3Const [])
        (geminiConst "T") (fun i => decide (i = 2)) "key" "my prompt"
        c7ExampleDB 0).1
      = c7ExampleDB
    ∧ (custom_prompt_analysis (httpConst ⟨200, "OK", [1]⟩) (s3Const [])
        (geminiConst "T") (fun i => decide (i = 2)) "key" "my prompt"
        c7ExampleDB 0).2.isSome
      = true
    ∧ (process_hourly_traffic_images (httpConst ⟨200, "OK", [1]⟩) (s3Const [])
        (geminiConst "T") (fun i => decide (i = 2)) "key" c7ExampleDB
        0).1.timeseries
      = [⟨1, 0, "s1", some "http://cam/a.png", none, none, none, none⟩,
         ⟨2, 60, "s1", some "http://cam/b.png", none, none, none, some "T"⟩]
    := by decide

/-- C7 (amended): in the standard batch loop a record whose persist fails is
simply skipped — the run is exactly the run without it, so every other
record, later ones included, is still processed; in the custom-prompt loop
the first persist failure aborts: once the records before `bad` all persist
and `bad` does not, the loop's outcome ignores everything after `bad`. -/
theorem c7_batch_error_containment (http : HttpOracle) (s3 : S3Oracle)
    (gemini : GeminiOracle) (persistOk : Nat → Bool)
    (key custom_prompt : String) (db : DB) (pre post : List TSRow)
    (bad : TSRow) (hbad : persistOk bad.id = false) :
    (hourlyAnalysisLoop http s3 gemini persistOk key (pre ++ bad :: post) db
      = hourlyAnalysisLoop http s3 gemini persistOk key (pre ++ post) db)
    ∧ ((∀ x ∈ pre, persistOk x.id = true) →
      customPromptLoop http s3 gemini persistOk key custom_prompt
          (pre ++ bad :: post) db
        = customPromptLoop http s3 gemini persistOk key custom_prompt
            (pre ++ [bad]) db) := by
  constructor
  · have hstep : ∀ acc, hourlyStep http s3 gemini persistOk key acc bad = acc := by
      intro acc
      simp [hourlyStep, store_analysis_results, hbad]
    unfold hourlyAnalysisLoop
    rw [List.foldl_append, List.foldl_append, List.foldl_cons, hstep]
  · induction pre generalizing db with
    | nil =>
      intro _
      simp only [List.nil_append]
      unfold customPromptLoop
      simp [store_analysis_results, hbad]
    | cons x xs ih =>
      intro hpre
      have hx : persistOk x.id = true := hpre x (List.mem_cons_self x xs)
      simp only [List.cons_append]
      unfold customPromptLoop
      simp only [store_analysis_results, hx, if_true]
      exact ih _ (fun y hy => hpre y (List.mem_cons_of_mem x hy))

theorem c7_batch_error_containment_witness :
    hourlyAnalysisLoop (httpConst ⟨200, "OK", [1]⟩) (s3Const [])
        (geminiConst "T") (fun i => decide (i ≠ 2)) "key"
        [⟨1, 0, "s1", some "http://cam/a.png", none, none, none, none⟩,
         ⟨2, 60, "s1", some "http://cam/b.png", none, none, none, none⟩,
         ⟨3, 120, "s1", some "http://cam/c.png", none, none, none, none⟩]
        c7ExampleDB
      = hourlyAnalysisLoop (httpConst ⟨200, "OK", [1]⟩) (s3Const [])
          (geminiConst "T") (fun i => decide (i ≠ 2)) "key"
          [⟨1, 0, "s1", some "http://cam/a.png", none, none, none, none⟩,
           ⟨3, 120, "s1", some "http://cam/c.png", none, none, none, none⟩]
          c7ExampleDB
    ∧ customPromptLoop (httpConst ⟨200, "OK", [1]⟩) (s3Const [])
        (geminiConst "T") (fun i => decide (i ≠ 2)) "key" "p"
        [⟨1, 0, "s1", some "http://cam/a.png", none, none, none, none⟩,
         ⟨2, 60, "s1", some "http://cam/b.png", none, none, none, none⟩,
         ⟨3, 120, "s1", some "http://cam/c.png", none, none, none, none⟩]
        c7ExampleDB
      = customPromptLoop (httpConst ⟨200, "OK", [1]⟩) (s3Const [])
          (geminiConst "T") (fun i => decide (i ≠ 2)) "key" "p"
          [⟨1, 0, "s1", some "http://cam/a.png", none, none, none, none⟩,
           ⟨2, 60, "s1", some "http://cam/b.png", none, none, none, none⟩]
          c7ExampleDB :=
  ⟨(c7_batch_error_containment (httpConst ⟨200, "OK", [1]⟩) (s3Const [])
      (geminiConst "T") (fun i => decide (i ≠ 2)) "key" "p" c7ExampleDB
      [⟨1, 0, "s1", some "http://cam/a.png", none, none, none, none⟩]
      [⟨3, 120, "s1", some "http://cam/c.png", none, none, none, none⟩]
      ⟨2, 60, "s1", some "http://cam/b.png", none, none, none, none⟩
      (by decide)).1,
   (c7_batch_error_containment (httpConst ⟨200, "OK", [1]⟩) (s3Const [])
      (geminiConst "T") (fun i => decide (i ≠ 2)) "key" "p" c7ExampleDB
      [⟨1, 0, "s1", some "http://cam/a.png", none, none, none, none⟩]
      [⟨3, 120, "s1", some "http://cam/c.png", none, none, none, none⟩]
      ⟨2, 60, "s1", some "http://cam/b.png", none, none, none, none⟩
      (by decide)).2 (by decide)⟩

/-- Every row the paginated timeseries returns comes from the unsorted
result set of the query. -/
theorem gtm_timeseries_sub (locs : Locations) (db : DB) (skip : Nat)
    (limit : Option Nat) (af lid : Option String) (agg : TimeAgg)
    (row : SeriesRow)
    (h : row ∈ (get_traffic_metrics locs db skip limit af lid agg).timeseries) :
    row ∈ seriesRows agg (qualifyingRows locs af lid db) := by
  unfold get_traffic_metrics at h
  refine (List.perm_insertionSort rowDesc _).subset ?_
  cases limit with
  | none =>
    simp only at h
    exact List.mem_of_mem_drop h
  | some n =>
    simp only at h
    exact List.mem_of_mem_drop (List.mem_of_mem_take h)

/-- Rows of the qualifying join always carry a located, non-null address. -/
theorem mem_qualifyingRows_address (locs : Locations) (af lid : Option String)
    (db : DB) (q : QRow) (hq : q ∈ qualifyingRows locs af lid db) :
    ∃ l, locs q.row.source_id = some l ∧ l.address = some q.address := by
  obtain ⟨r, hr, he⟩ := List.mem_filterMap.mp hq
  unfold qualifies at he
  split at he
  · cases hl : locs r.source_id with
    | none =>
      rw [hl] at he
      exact absurd he (by simp)
    | some l =>
      rw [hl] at he
      dsimp only at he
      cases ha : l.address with
      | none =>
        rw [ha] at he
        exact absurd he (by simp)
      | some a =>
        rw [ha] at he
        dsimp only at he
        split at he
        · injection he with he2
          subst he2
          exact ⟨l, hl, ha⟩
        · exact absurd he (by simp)
  · exact absurd he (by simp)

/-- An aggregated row for a key that actually occurs groups at least one
sample. -/
theorem groupSeriesRow_count_pos (agg : TimeAgg) (qs : List QRow)
    (k : Int × String × String) (hk : k ∈ qs.map (groupKey agg)) :
    1 ≤ (groupSeriesRow agg qs k).sample_count := by
  obtain ⟨q, hq, rfl⟩ := List.mem_map.mp hk
  have hmem : q ∈ qs.filter (fun x => decide (groupKey agg x = groupKey agg q)) :=
    List.mem_filter.mpr ⟨hq, by simp⟩
  exact List.length_pos.mpr (List.ne_nil_of_mem hmem)

/-- No two rows of the hour-grouped result set share the grouping key. -/
theorem seriesRows_hour_pairwise (qs : List QRow) :
    List.Pairwise
      (fun a b => ¬ (a.timestamp = b.timestamp ∧ a.source_id = b.source_id
        ∧ a.address = b.address))
      (seriesRows .hour qs) := by
  unfold seriesRows
  refine List.Pairwise.map _ ?_ (List.nodup_dedup _)
  intro k1 k2 hne hcon
  obtain ⟨t1, s1, a1⟩ := k1
  obtain ⟨t2, s2, a2⟩ := k2
  obtain ⟨h1, h2, h3⟩ := hcon
  simp only [groupSeriesRow] at h1 h2 h3
  exact hne (by rw [h1, h2, h3])

/-- C3: the Metrics Aggregator with no time aggregation returns one row per
raw qualifying sample, each with sample_count 1 (a permutation-exact
correspondence when unpaginated); with hour aggregation every returned row
groups at least one sample and no two returned rows share the
(hour-truncated timestamp, source_id, address) key; and in every mode each
returned row's address is the non-null address of the joined location —
rows with a null joined address never appear. -/
theorem c3_metrics_aggregator (locs : Locations) (db : DB) (skip : Nat)
    (limit : Option Nat) (af lid : Option String) :
    (∀ row ∈ (get_traffic_metrics locs db skip limit af lid .raw).timeseries,
        row.sample_count = 1)
    ∧ (skip = 0 → limit = none →
        (get_traffic_metrics locs db skip limit af lid .raw).timeseries.Perm
          ((qualifyingRows locs af lid db).map rawSeriesRow))
    ∧ (∀ row ∈ (get_traffic_metrics locs db skip limit af lid .hour).timeseries,
        1 ≤ row.sample_count)
    ∧ List.Pairwise
        (fun a b => ¬ (a.timestamp = b.timestamp ∧ a.source_id = b.source_id
          ∧ a.address = b.address))
        (get_traffic_metrics locs db skip limit af lid .hour).timeseries
    ∧ (∀ agg : TimeAgg,
        ∀ row ∈ (get_traffic_metrics locs db skip limit af lid agg).timeseries,
          ∃ l, locs row.source_id = some l ∧ l.address = some row.address) := by
  refine ⟨?_, ?_, ?_, ?_, ?_⟩
  · intro row h
    have hs := gtm_timeseries_sub locs db skip limit af lid .raw row h
    unfold seriesRows at hs
    obtain ⟨q, hq, rfl⟩ := List.mem_map.mp hs
    rfl
  · intro h0 hn
    subst h0
    subst hn
    unfold get_traffic_metrics
    simp only [List.drop_zero]
    exact List.perm_insertionSort rowDesc _
  · intro row h
    have hs := gtm_timeseries_sub locs db skip limit af lid .hour row h
    unfold seriesRows at hs
    obtain ⟨k, hk, rfl⟩ := List.mem_map.mp hs
    exact groupSeriesRow_count_pos .hour _ k (List.mem_dedup.mp hk)
  · have hsym : ∀ {a b : SeriesRow},
        ¬ (a.timestamp = b.timestamp ∧ a.source_id = b.source_id
          ∧ a.address = b.address) →
        ¬ (b.timestamp = a.timestamp ∧ b.source_id = a.source_id
          ∧ b.address = a.address) := by
      intro a b h hc
      exact h ⟨hc.1.symm, hc.2.1.symm, hc.2.2.symm⟩
    have h0 := seriesRows_hour_pairwise (qualifyingRows locs af lid db)
    have h1 : List.Pairwise
        (fun a b => ¬ (a.timestamp = b.timestamp ∧ a.source_id = b.source_id
          ∧ a.address = b.address))
        (List.insertionSort rowDesc
          (seriesRows .hour (qualifyingRows locs af lid db))) :=
      ((List.perm_insertionSort rowDesc _).pairwise_iff hsym).mpr h0
    unfold get_traffic_metrics
    cases limit with
    | none => exact h1.sublist (List.drop_sublist _ _)
    | some n =>
      exact h1.sublist ((List.take_sublist _ _).trans (List.drop_sublist _ _))
  · intro agg row h
    have hs := gtm_timeseries_sub locs db skip limit af lid agg row h
    cases agg with
    | raw =>
      unfold seriesRows at hs
      obtain ⟨q, hq, rfl⟩ := List.mem_map.mp hs
      exact mem_qualifyingRows_address locs af lid db q hq
    | hour =>
      unfold seriesRows at hs
      obtain ⟨k, hk, rfl⟩ := List.mem_map.mp hs
      obtain ⟨q, hq, hkq⟩ := List.mem_map.mp (List.mem_dedup.mp hk)
      subst hkq
      exact mem_qualifyingRows_address locs af lid db q hq
    | day =>
      unfold seriesRows at hs
      obtain ⟨k, hk, rfl⟩ := List.mem_map.mp hs
      obtain ⟨q, hq, hkq⟩ := List.mem_map.mp (List.mem_dedup.mp hk)
      subst hkq
      exact mem_qualifyingRows_address locs af lid db q hq

theorem c3_metrics_aggregator_witness :
    (rawSeriesRow ⟨⟨1, 0, "s1", none, some 2, some 3, none, none⟩,
        "1 Main St"⟩).sample_count = 1
    ∧ (get_traffic_metrics c3ExampleLocs c3ExampleDB 0 none none none
        .raw).timeseries.Perm
        ((qualifyingRows c3ExampleLocs none none c3ExampleDB).map rawSeriesRow)
    ∧ 1 ≤ (groupSeriesRow .hour
        (qualifyingRows c3ExampleLocs none none c3ExampleDB)
        (groupKey .hour ⟨⟨1, 0, "s1", none, some 2, some 3, none, none⟩,
          "1 Main St"⟩)).sample_count
    ∧ ∃ l, c3ExampleLocs "s1" = some l ∧ l.address = some "1 Main St" := by
  have hqs : qualifyingRows c3ExampleLocs none none c3ExampleDB
      = [⟨⟨1, 0, "s1", none, some 2, some 3, none, none⟩, "1 Main St"⟩] := by
    decide
  have hraw : (get_traffic_metrics c3ExampleLocs c3ExampleDB 0 none none none
      .raw).timeseries
      = [rawSeriesRow ⟨⟨1, 0, "s1", none, some 2, some 3, none, none⟩,
          "1 Main St"⟩] := by
    unfold get_traffic_metrics
    rw [hqs]
    simp [seriesRows, List.insertionSort]
  have hhour : (get_traffic_metrics c3ExampleLocs c3ExampleDB 0 none none none
      .hour).timeseries
      = [groupSeriesRow .hour
          (qualifyingRows c3ExampleLocs none none c3ExampleDB)
          (groupKey .hour ⟨⟨1, 0, "s1", none, some 2, some 3, none, none⟩,
            "1 Main St"⟩)] := by
    unfold get_traffic_metrics
    rw [hqs]
    simp [seriesRows, List.insertionSort]
  refine ⟨?_, ?_, ?_, ?_⟩
  · exact (c3_metrics_aggregator c3ExampleLocs c3ExampleDB 0 none none none).1
      _ (by rw [hraw]; exact List.mem_singleton_self _)
  · exact (c3_metrics_aggregator c3ExampleLocs c3ExampleDB 0 none none
      none).2.1 rfl rfl
  · exact (c3_metrics_aggregator c3ExampleLocs c3ExampleDB 0 none none
      none).2.2.1 _ (by rw [hhour]; exact List.mem_singleton_self _)
  · have h := (c3_metrics_aggregator c3ExampleLocs c3ExampleDB 0 none none
      none).2.2.2.2 .raw _ (by rw [hraw]; exact List.mem_singleton_self _)
    simpa [rawSeriesRow] using h

theorem pyRound2_zero : pyRound2 0 = 0 := by norm_num [pyRound2]

theorem avg_zero_row : pyRound2 ((sqlAvg [some 0]).getD 0) = 0 := by
  have h : sqlAvg [some (0:ℚ)] = some 0 := by
    simp [sqlAvg]
  rw [h]
  simpa using pyRound2_zero

/-- C10: when the filters match no rows the aggregator succeeds and returns
averages exactly {avg_people 0.0, avg_vehicles 0.0, total_records 0}, an
empty timeseries and pagination total 0; and matching data whose true
counts are all zero produces the same 0.0 average fields (only
total_records tells the cases apart). -/
theorem c10_metrics_empty_result (locs : Locations) (db : DB) (skip : Nat)
    (limit : Option Nat) (af lid : Option String) (agg : TimeAgg)
    (hempty : qualifyingRows locs af lid db = []) :
    get_traffic_metrics locs db skip limit af lid agg
      = { averages := ⟨0, 0, 0⟩, timeseries := [], total := 0,
          skip := skip, limit := limit, aggregation := agg }
    ∧ (get_traffic_metrics c3ExampleLocs c10ZeroDB 0 none none none
        .raw).averages.avg_people = 0
    ∧ (get_traffic_metrics c3ExampleLocs c10ZeroDB 0 none none none
        .raw).averages.avg_vehicles = 0
    ∧ (get_traffic_metrics c3ExampleLocs c10ZeroDB 0 none none none
        .raw).averages.total_records = 1 := by
  have hq0 : qualifyingRows c3ExampleLocs none none c10ZeroDB
      = [⟨⟨1, 0, "s1", none, some 0, some 0, none, none⟩, "1 Main St"⟩] := by
    decide
  refine ⟨?_, ?_, ?_, ?_⟩
  · unfold get_traffic_metrics
    rw [hempty]
    cases agg <;> cases limit <;>
      simp [seriesRows, sqlAvg, pyRound2_zero, List.insertionSort]
  · simp only [get_traffic_metrics, hq0, List.map_cons, List.map_nil]
    exact avg_zero_row
  · simp only [get_traffic_metrics, hq0, List.map_cons, List.map_nil]
    exact avg_zero_row
  · simp only [get_traffic_metrics, hq0]
    rfl

theorem c10_metrics_empty_result_witness :
    get_traffic_metrics (fun _ => none) ⟨[], []⟩ 3 (some 7) none none .hour
      = { averages := ⟨0, 0, 0⟩, timeseries := [], total := 0,
          skip := 3, limit := some 7, aggregation := .hour } :=
  (c10_metrics_empty_result (fun _ => none) ⟨[], []⟩ 3 (some 7) none none
    .hour (by decide)).1
